import Mathlib

/-!
# Verification of the symfonia Gateway core

A shallow embedding of the gateway components of the symfonia repository
(`src/gateway/heartbeat.rs`, `src/gateway/types.rs`) together with proofs
about the embedded definitions.  Machine integers (`u64`, `u8`) are modelled
as `Nat`; truncating casts are made explicit with `% 256` where they occur
in the source.  Rust `HashMap`s are modelled as association lists with
insert-replaces-key semantics, `HashSet`s as duplicate-free lists built by
insert-if-absent, and a panic (a Rust `unwrap` on `None`) as a distinguished
result constructor.
-/

namespace Symfonia

/-! ## Association-list maps (model of `std::collections::HashMap`) -/

/-- Lookup in an association-list map: the first binding of the key wins. -/
def mapLookup {κ β : Type} [DecidableEq κ] (m : List (κ × β)) (k : κ) : Option β :=
  match m with
  | [] => none
  | (k', v) :: rest => if k' = k then some v else mapLookup rest k

/-- Insert into an association-list map, replacing an existing binding of the
key (the semantics of `HashMap::insert`). -/
def mapInsert {κ β : Type} [DecidableEq κ] (m : List (κ × β)) (k : κ) (v : β) :
    List (κ × β) :=
  match m with
  | [] => [(k, v)]
  | (k', v') :: rest => if k' = k then (k, v) :: rest else (k', v') :: mapInsert rest k v

/-- Remove a key from an association-list map (the semantics of
`HashMap::remove`). -/
def mapRemove {κ β : Type} [DecidableEq κ] (m : List (κ × β)) (k : κ) : List (κ × β) :=
  match m with
  | [] => []
  | (k', v) :: rest => if k' = k then mapRemove rest k else (k', v) :: mapRemove rest k

/-- Insert-if-absent into a list used as a set (the semantics of
`HashSet::insert`). -/
def setInsert {α : Type} [DecidableEq α] (s : List α) (x : α) : List α :=
  if x ∈ s then s else s ++ [x]

@[simp]
theorem mapLookup_nil {κ β : Type} [DecidableEq κ] (k : κ) :
    mapLookup ([] : List (κ × β)) k = none := rfl

@[simp]
theorem mapLookup_cons {κ β : Type} [DecidableEq κ] (k' k : κ) (v : β)
    (rest : List (κ × β)) :
    mapLookup ((k', v) :: rest) k = if k' = k then some v else mapLookup rest k := rfl

theorem mapLookup_mapInsert {κ β : Type} [DecidableEq κ] (m : List (κ × β)) (k j : κ)
    (v : β) :
    mapLookup (mapInsert m k v) j = if k = j then some v else mapLookup m j := by
  induction m with
  | nil => simp only [mapInsert, mapLookup]
  | cons p rest ih =>
    obtain ⟨k', v'⟩ := p
    simp only [mapInsert]
    by_cases hk : k' = k
    · rw [if_pos hk]
      subst hk
      simp only [mapLookup]
      by_cases hj : k' = j
      · simp only [if_pos hj]
      · simp only [if_neg hj]
    · rw [if_neg hk]
      simp only [mapLookup, ih]
      by_cases hj : k' = j
      · have hkj : ¬(k = j) := fun h => hk (hj.trans h.symm)
        simp only [if_pos hj, if_neg hkj]
      · simp only [if_neg hj]

theorem mapLookup_mapRemove {κ β : Type} [DecidableEq κ] (m : List (κ × β)) (k j : κ) :
    mapLookup (mapRemove m k) j = if k = j then none else mapLookup m j := by
  induction m with
  | nil =>
    simp only [mapRemove, mapLookup]
    by_cases h : k = j
    · simp only [if_pos h]
    · simp only [if_neg h]
  | cons p rest ih =>
    obtain ⟨k', v'⟩ := p
    simp only [mapRemove]
    by_cases hk : k' = k
    · rw [if_pos hk]
      subst hk
      simp only [ih, mapLookup]
      by_cases hj : k' = j
      · simp only [if_pos hj]
      · simp only [if_neg hj]
    · rw [if_neg hk]
      simp only [mapLookup, ih]
      by_cases hj : k' = j
      · have hkj : ¬(k = j) := fun h => hk (h.trans hj.symm).symm
        simp only [if_pos hj, if_neg hkj]
      · simp only [if_neg hj]

/-! ## Heartbeat handling (`src/gateway/heartbeat.rs`) -/

/-- `HEARTBEAT_INTERVAL = Duration::from_secs(45)`. Modelled in seconds. -/
def HEARTBEAT_INTERVAL : Nat := 45

/-- `LATENCY_BUFFER = Duration::from_secs(5)`. Modelled in seconds. -/
def LATENCY_BUFFER : Nat := 5

/-- Granular comparison of two sequence numbers
(`enum SequenceNumberComparison` in heartbeat.rs). -/
inductive SequenceNumberComparison : Type
  | Correct : SequenceNumberComparison
  | SlightlyOff : Nat → SequenceNumberComparison
  | WayOff : Nat → SequenceNumberComparison
deriving DecidableEq, Repr

namespace HeartbeatHandler

/-- `HeartbeatHandler::compare_sequence_numbers`: takes `max - min` of the two
`u64` values and classifies the difference with the range match
`0 => Correct`, `1..=2 => SlightlyOff`, `_ => WayOff`. -/
def compare_sequence_numbers (one two : Nat) : SequenceNumberComparison :=
  let mx := max one two
  let mn := min one two
  if mx - mn = 0 then SequenceNumberComparison.Correct
  else if mx - mn ≤ 2 then SequenceNumberComparison.SlightlyOff (mx - mn)
  else SequenceNumberComparison.WayOff (mx - mn)

end HeartbeatHandler

/-- The inbound heartbeat frame (`chorus::types::GatewayHeartbeat`): its
sequence field `d` is optional. -/
structure GatewayHeartbeat where
  d : Option Nat
deriving DecidableEq, Repr

/-- Frames the heartbeat handler can emit on the connection's outbound
broadcast. -/
inductive OutFrame : Type
  | HeartbeatAck : OutFrame
  | Reconnect : OutFrame
deriving DecidableEq, Repr

/-- Outcome of one iteration of `HeartbeatHandler::run`'s select loop:
the frames written to `connection.sender` in order, whether a kill signal
was sent on `kill_send`, whether the loop terminated, and whether
`last_heartbeat` was refreshed to the current instant. -/
structure HeartbeatStepResult where
  frames : List OutFrame
  killSent : Bool
  terminated : Bool
  refreshedLastHeartbeat : Bool
deriving DecidableEq, Repr

namespace HeartbeatHandler

/-- The heartbeat-message branch of `HeartbeatHandler::run` (the
`Ok(heartbeat) = self.message_receive.recv()` arm), on the path where sends
on the outbound broadcast succeed.  `localSeq` is the value behind
`self.sequence_number`.  If `heartbeat.d` is present the received number is
compared against `localSeq`: `Correct` and `SlightlyOff` call `send_ack`;
`WayOff` sends a `Reconnect`, fires the kill switch and returns.  Control
that falls through the `if let` then refreshes `last_heartbeat` and sends a
(second) `HeartbeatAck`. -/
def handleHeartbeat (localSeq : Nat) (heartbeat : GatewayHeartbeat) :
    HeartbeatStepResult :=
  match heartbeat.d with
  | some received_sequence_number =>
    match compare_sequence_numbers localSeq received_sequence_number with
    | SequenceNumberComparison.Correct =>
      { frames := [OutFrame.HeartbeatAck, OutFrame.HeartbeatAck],
        killSent := false, terminated := false, refreshedLastHeartbeat := true }
    | SequenceNumberComparison.SlightlyOff _ =>
      { frames := [OutFrame.HeartbeatAck, OutFrame.HeartbeatAck],
        killSent := false, terminated := false, refreshedLastHeartbeat := true }
    | SequenceNumberComparison.WayOff _ =>
      { frames := [OutFrame.Reconnect],
        killSent := true, terminated := true, refreshedLastHeartbeat := false }
  | none =>
    { frames := [OutFrame.HeartbeatAck],
      killSent := false, terminated := false, refreshedLastHeartbeat := true }

/-- The timeout branch of `HeartbeatHandler::run` (the `else` arm of the
select): computes `elapsed = now - last_heartbeat` and, when
`elapsed > Duration::from_secs(45)`, sends on `kill_send` and breaks; the
branch never writes a frame to the connection.  `elapsedNanos` is the
elapsed time in nanoseconds. -/
def handleTimeoutCheck (elapsedNanos : Nat) : HeartbeatStepResult :=
  if elapsedNanos > HEARTBEAT_INTERVAL * 1000000000 then
    { frames := [], killSent := true, terminated := true,
      refreshedLastHeartbeat := false }
  else
    { frames := [], killSent := false, terminated := false,
      refreshedLastHeartbeat := false }

/-- The absolute difference `|L - R|` computed by
`compare_sequence_numbers` as `max - min`. -/
def seqDist (one two : Nat) : Nat := max one two - min one two

end HeartbeatHandler

theorem compare_sequence_numbers_correct (one two : Nat)
    (h : HeartbeatHandler.seqDist one two = 0) :
    HeartbeatHandler.compare_sequence_numbers one two =
      SequenceNumberComparison.Correct := by
  simp only [HeartbeatHandler.compare_sequence_numbers, HeartbeatHandler.seqDist] at h ⊢
  rw [if_pos h]

theorem compare_sequence_numbers_slightlyOff (one two : Nat)
    (h1 : 1 ≤ HeartbeatHandler.seqDist one two)
    (h2 : HeartbeatHandler.seqDist one two ≤ 2) :
    HeartbeatHandler.compare_sequence_numbers one two =
      SequenceNumberComparison.SlightlyOff (HeartbeatHandler.seqDist one two) := by
  simp only [HeartbeatHandler.compare_sequence_numbers,
    HeartbeatHandler.seqDist] at h1 h2 ⊢
  rw [if_neg (by omega), if_pos h2]

theorem compare_sequence_numbers_wayOff (one two : Nat)
    (h : 3 ≤ HeartbeatHandler.seqDist one two) :
    HeartbeatHandler.compare_sequence_numbers one two =
      SequenceNumberComparison.WayOff (HeartbeatHandler.seqDist one two) := by
  simp only [HeartbeatHandler.compare_sequence_numbers,
    HeartbeatHandler.seqDist] at h ⊢
  rw [if_neg (by omega), if_neg (by omega)]

/-- C1 counterexample: with local sequence 5 and a received heartbeat carrying
`d = 5` (difference 0), the handler does not emit exactly one `HeartbeatAck`:
it emits two (one from the `Correct` arm's `send_ack`, one from the
unconditional send after the `if let`). -/
theorem c1_counterexample :
    (HeartbeatHandler.handleHeartbeat 5 { d := some 5 }).frames ≠
        [OutFrame.HeartbeatAck] ∧
      (HeartbeatHandler.handleHeartbeat 5 { d := some 5 }).frames =
        [OutFrame.HeartbeatAck, OutFrame.HeartbeatAck] := by
  decide

/-- C1 (amended): for a received heartbeat whose sequence field `d` is present,
with `d = |L - R|` the absolute difference between the local and received
sequence numbers: if `d ≤ 2` the handler emits exactly two `HeartbeatAck`
frames and no other outbound frame, does not kill the connection and keeps
running; if `d ≥ 3` it emits a single `Reconnect` frame, triggers the
kill-switch and terminates without emitting a `HeartbeatAck`. -/
theorem c1_heartbeat_sequence_handling (L R : Nat) :
    (HeartbeatHandler.seqDist L R ≤ 2 →
      HeartbeatHandler.handleHeartbeat L { d := some R } =
        { frames := [OutFrame.HeartbeatAck, OutFrame.HeartbeatAck],
          killSent := false, terminated := false,
          refreshedLastHeartbeat := true }) ∧
    (3 ≤ HeartbeatHandler.seqDist L R →
      HeartbeatHandler.handleHeartbeat L { d := some R } =
        { frames := [OutFrame.Reconnect], killSent := true, terminated := true,
          refreshedLastHeartbeat := false } ∧
      OutFrame.HeartbeatAck ∉
        (HeartbeatHandler.handleHeartbeat L { d := some R }).frames) := by
  constructor
  · intro h
    by_cases h0 : HeartbeatHandler.seqDist L R = 0
    · simp [HeartbeatHandler.handleHeartbeat,
        compare_sequence_numbers_correct L R h0]
    · simp [HeartbeatHandler.handleHeartbeat,
        compare_sequence_numbers_slightlyOff L R (by omega) h]
  · intro h
    constructor
    · simp [HeartbeatHandler.handleHeartbeat,
        compare_sequence_numbers_wayOff L R h]
    · simp [HeartbeatHandler.handleHeartbeat,
        compare_sequence_numbers_wayOff L R h]

/-- Witness for the C1 theorem at concrete inputs: local sequence 5 with
received sequence 5 (difference 0, two acks) and received sequence 10
(difference 5, reconnect). -/
theorem c1_heartbeat_sequence_handling_witness :
    HeartbeatHandler.handleHeartbeat 5 { d := some 5 } =
      { frames := [OutFrame.HeartbeatAck, OutFrame.HeartbeatAck],
        killSent := false, terminated := false,
        refreshedLastHeartbeat := true } ∧
    HeartbeatHandler.handleHeartbeat 5 { d := some 10 } =
      { frames := [OutFrame.Reconnect], killSent := true, terminated := true,
        refreshedLastHeartbeat := false } :=
  ⟨(c1_heartbeat_sequence_handling 5 5).1 (by decide),
    ((c1_heartbeat_sequence_handling 5 10).2 (by decide)).1⟩

/-- C4: when the timeout branch of the heartbeat select loop observes that
more than `HEARTBEAT_INTERVAL` (45 seconds) has elapsed since the last
observed heartbeat, the handler sends on `kill_send` and terminates without
emitting any frame to the client. -/
theorem c4_liveness_timeout (elapsedNanos : Nat)
    (h : elapsedNanos > HEARTBEAT_INTERVAL * 1000000000) :
    HeartbeatHandler.handleTimeoutCheck elapsedNanos =
      { frames := [], killSent := true, terminated := true,
        refreshedLastHeartbeat := false } := by
  simp [HeartbeatHandler.handleTimeoutCheck, h]

/-- Witness for C4 at a concrete elapsed time of 45 seconds plus one
nanosecond. -/
theorem c4_liveness_timeout_witness :
    HeartbeatHandler.handleTimeoutCheck 45000000001 =
      { frames := [], killSent := true, terminated := true,
        refreshedLastHeartbeat := false } :=
  c4_liveness_timeout 45000000001 (by decide)

/-- C10: for an inbound heartbeat whose optional sequence field `d` is absent,
the handler performs no sequence comparison and does not kill the connection;
it refreshes the last-heartbeat instant and sends exactly one `HeartbeatAck`
to the client. -/
theorem c10_heartbeat_without_sequence (L : Nat) :
    HeartbeatHandler.handleHeartbeat L { d := none } =
      { frames := [OutFrame.HeartbeatAck], killSent := false,
        terminated := false, refreshedLastHeartbeat := true } := rfl

/-! ## JSON values and `GatewayPayload` (de)serialisation
(`src/gateway/types.rs`, lines 166-210) -/

/-- A model of `serde_json::Value` (numbers restricted to the unsigned range,
which is the only case the gateway reads through `as_u64`). -/
inductive Json : Type
  | null : Json
  | boolean : Bool → Json
  | num : Nat → Json
  | str : String → Json
  | arr : List Json → Json
  | obj : List (String × Json) → Json

namespace Json

/-- `Value::get(key)`: `Some` of the field when the value is an object with
that field, `None` otherwise. -/
def get (j : Json) (key : String) : Option Json :=
  match j with
  | Json.obj fields => mapLookup fields key
  | _ => none

/-- The `Value::index` operator `value[key]`, which yields `Null` when the
key is absent or the value is not an object. -/
def index (j : Json) (key : String) : Json :=
  match j.get key with
  | some v => v
  | none => Json.null

/-- `Value::as_u64`. -/
def asU64 : Json → Option Nat
  | Json.num n => some n
  | _ => none

/-- `Value::as_str`. -/
def asStr : Json → Option String
  | Json.str s => some s
  | _ => none

end Json

/-- The result of running the hand-written `Deserialize` impl: it may panic
(a Rust `unwrap` on `None`), fail with a deserialisation error, or succeed. -/
inductive DeserResult (T : Type) : Type
  | panicked : DeserResult T
  | error : String → DeserResult T
  | ok : T → DeserResult T

/-- `true` exactly when the deserialisation returned an error value (rather
than succeeding or panicking). -/
def DeserResult.isError {T : Type} : DeserResult T → Bool
  | DeserResult.error _ => true
  | _ => false

/-- The wire envelope `GatewayPayload<T>`: opcode (`u8`, modelled as `Nat`
kept below 256), data `T`, optional sequence number, optional event name. -/
structure GatewayPayload (T : Type) where
  op_code : Nat
  event_data : T
  sequence_number : Option Nat
  event_name : Option String

/-- The hand-written `Deserialize for GatewayPayload<T>`, parametrised by
`T`'s decoder (`serde_json::from_value`).  Mirrors the source order:
`value["op"].as_u64().unwrap() as u8` (a panic when `op` is absent or not a
number), then `value.get("d")` (`missing_field` error when absent, `T`'s
error forwarded), then `value.get("s").map(|v| v.as_u64().unwrap())` (a panic
when `s` is present but not a number), then `value.get("t")` read through
`as_str` with no failure path. -/
def GatewayPayload.deserialize {T : Type} (decodeT : Json → Except String T)
    (value : Json) : DeserResult (GatewayPayload T) :=
  match (value.index "op").asU64 with
  | none => DeserResult.panicked
  | some opU64 =>
    let op_code := opU64 % 256
    match value.get "d" with
    | none => DeserResult.error "missing field d"
    | some data =>
      match decodeT data with
      | Except.error e => DeserResult.error e
      | Except.ok event_data =>
        let event_name : Option String :=
          match value.get "t" with
          | some v => v.asStr
          | none => none
        match value.get "s" with
        | some v =>
          match v.asU64 with
          | none => DeserResult.panicked
          | some n =>
            DeserResult.ok
              { op_code := op_code, event_data := event_data,
                sequence_number := some n, event_name := event_name }
        | none =>
          DeserResult.ok
            { op_code := op_code, event_data := event_data,
              sequence_number := none, event_name := event_name }

/-- The derived `Serialize` impl of `GatewayPayload<T>`: fields in declaration
order with their renames `op`, `d`, `s`, `t`, where `s` and `t` are skipped
when `None` (`skip_serializing_if = "Option::is_none"`). -/
def GatewayPayload.serialize {T : Type} (encodeT : T → Json)
    (p : GatewayPayload T) : Json :=
  Json.obj
    ([("op", Json.num p.op_code), ("d", encodeT p.event_data)] ++
      (match p.sequence_number with
        | some n => [("s", Json.num n)]
        | none => []) ++
      (match p.event_name with
        | some s => [("t", Json.str s)]
        | none => []))

/-- A faithful encoder for `Nat` event data, used as a concrete `T` in
witnesses. -/
def encodeNat (n : Nat) : Json := Json.num n

/-- A faithful decoder for `Nat` event data, used as a concrete `T` in
witnesses. -/
def decodeNat (j : Json) : Except String Nat :=
  match j.asU64 with
  | some n => Except.ok n
  | none => Except.error "invalid type"

/-- C5 counterexample: deserialising an object with a `d` field but no `op`
field does not return a deserialisation error — the impl panics (the
`unwrap` on `value["op"].as_u64()`), i.e. it aborts. -/
theorem c5_counterexample :
    GatewayPayload.deserialize decodeNat (Json.obj [("d", Json.num 0)]) =
        (DeserResult.panicked : DeserResult (GatewayPayload Nat)) ∧
      (GatewayPayload.deserialize decodeNat
        (Json.obj [("d", Json.num 0)])).isError = false := by
  constructor <;> rfl

/-- C5 (amended): deserialising as `GatewayPayload<T>` panics (aborts, rather
than returning an error) when the `op` field is absent; returns a
deserialisation error when `op` is present as a number but the `d` field is
absent; and succeeds when `op` and `d` are present and well-typed even if
`s` and `t` are absent, leaving `sequence_number` and `event_name` as
`None`. -/
theorem c5_mandatory_optional_fields {T : Type}
    (decodeT : Json → Except String T) :
    (∀ value : Json, value.get "op" = none →
      GatewayPayload.deserialize decodeT value = DeserResult.panicked) ∧
    (∀ (value : Json) (n : Nat), (value.index "op").asU64 = some n →
      value.get "d" = none →
      GatewayPayload.deserialize decodeT value =
        DeserResult.error "missing field d") ∧
    (∀ (op : Nat) (d : Json) (t : T), decodeT d = Except.ok t →
      GatewayPayload.deserialize decodeT
          (Json.obj [("op", Json.num op), ("d", d)]) =
        DeserResult.ok
          { op_code := op % 256, event_data := t,
            sequence_number := none, event_name := none }) := by
  refine ⟨?_, ?_, ?_⟩
  · intro value h
    simp [GatewayPayload.deserialize, Json.index, h, Json.asU64]
  · intro value n hop hd
    simp [GatewayPayload.deserialize, hop, hd]
  · intro op d t h
    simp [GatewayPayload.deserialize, Json.index, Json.get, Json.asU64,
      mapLookup, h]

/-- Witness for C5 at concrete inputs: a full `{"op":2,"d":7}` succeeds with
absent `s`/`t` coming back as `None`; `{"op":2}` yields the missing-`d`
error; the empty object panics. -/
theorem c5_mandatory_optional_fields_witness :
    GatewayPayload.deserialize decodeNat
        (Json.obj [("op", Json.num 2), ("d", Json.num 7)]) =
      DeserResult.ok
        { op_code := 2 % 256, event_data := 7, sequence_number := none,
          event_name := none } ∧
    GatewayPayload.deserialize decodeNat (Json.obj [("op", Json.num 2)]) =
      (DeserResult.error "missing field d" : DeserResult (GatewayPayload Nat)) ∧
    GatewayPayload.deserialize decodeNat (Json.obj []) =
      (DeserResult.panicked : DeserResult (GatewayPayload Nat)) :=
  ⟨(c5_mandatory_optional_fields decodeNat).2.2 2 (Json.num 7) 7 rfl,
    (c5_mandatory_optional_fields decodeNat).2.1
      (Json.obj [("op", Json.num 2)]) 2 rfl rfl,
    (c5_mandatory_optional_fields decodeNat).1 (Json.obj []) rfl⟩

/-- C6: for every `GatewayPayload<T>` value `p` (with `T`'s (de)serialisation
faithful and the opcode in the `u8` range), serialising `p` to JSON and
deserialising the result yields `p` back; in particular when
`p.sequence_number` or `p.event_name` is `None` the `s`/`t` key is omitted
from the JSON and comes back as `None`. -/
theorem c6_payload_roundtrip {T : Type} (encodeT : T → Json)
    (decodeT : Json → Except String T)
    (faithful : ∀ t : T, decodeT (encodeT t) = Except.ok t)
    (p : GatewayPayload T) (hop : p.op_code < 256) :
    GatewayPayload.deserialize decodeT (GatewayPayload.serialize encodeT p) =
      DeserResult.ok p := by
  obtain ⟨op, ev, s, t⟩ := p
  simp only [GatewayPayload.serialize] at *
  cases s <;> cases t <;>
    simp [GatewayPayload.deserialize, Json.get, Json.index, Json.asU64,
      Json.asStr, mapLookup, faithful, Nat.mod_eq_of_lt hop]

/-- Witness for C6 at a concrete payload with all four fields set. -/
theorem c6_payload_roundtrip_witness :
    GatewayPayload.deserialize decodeNat
        (GatewayPayload.serialize encodeNat
          { op_code := 0, event_data := 42, sequence_number := some 9,
            event_name := some "READY" }) =
      DeserResult.ok
        { op_code := 0, event_data := 42, sequence_number := some 9,
          event_name := some "READY" } :=
  c6_payload_roundtrip encodeNat decodeNat (fun _ => rfl) _ (by decide)

/-! ## Connected-users registry (`src/gateway/types.rs`, lines 212-433) -/

/-- Model of a `tokio::sync::broadcast::Sender<Event>` as used by the fan-out
code: sending on it either succeeds or fails with an error whose display
string is `errMsg` (a broadcast send fails when the channel has no
receivers). -/
structure Inbox where
  sendOk : Bool
  errMsg : String
deriving DecidableEq, Repr

/-- Model of the `Event` enum: only identity of the value matters to the
fan-out and registry code, which moves and clones events without inspecting
them. -/
structure EventM where
  tag : Nat
deriving DecidableEq, Repr

/-- The state of a `GatewayClient` visible to the registry operations: its
session token and the value behind its shared `last_sequence`. -/
structure GatewayClientM where
  session_token : String
  last_sequence : Nat
deriving DecidableEq, Repr

/-- The state of a `GatewayUser` visible to the registry operations: its
snowflake id, its outbox, and its `session_token → client` map. -/
structure GatewayUserM where
  id : Nat
  outbox : Inbox
  clients : List (String × GatewayClientM)
deriving DecidableEq, Repr

/-- `DisconnectInfo`: the weak parent reference is modelled by the parent's
snowflake id. -/
structure DisconnectInfoM where
  session_token : String
  disconnected_at_sequence : Nat
  parentId : Nat
deriving DecidableEq, Repr

/-- `ConnectedUsersInner`: the `inboxes` map, the `users` map, and the
resumable-clients store. -/
structure ConnectedUsersInnerM where
  inboxes : List (Nat × Inbox)
  users : List (Nat × GatewayUserM)
  resumeable_clients_store : List (String × DisconnectInfoM)
deriving DecidableEq, Repr

namespace ConnectedUsers

/-- `ConnectedUsers::register`: inserts the user's outbox into `inboxes` and
the user into `users`, both under the user's id. -/
def register (s : ConnectedUsersInnerM) (user : GatewayUserM) :
    ConnectedUsersInnerM :=
  { s with
    inboxes := mapInsert s.inboxes user.id user.outbox
    users := mapInsert s.users user.id user }

/-- `ConnectedUsers::deregister`: removes the user's id from both `inboxes`
and `users`. -/
def deregister (s : ConnectedUsersInnerM) (user : GatewayUserM) :
    ConnectedUsersInnerM :=
  { s with
    inboxes := mapRemove s.inboxes user.id
    users := mapRemove s.users user.id }

/-- `ConnectedUsers::new_user`: constructs a `GatewayUser` with a fresh
broadcast channel pair and registers it. -/
def new_user (s : ConnectedUsersInnerM) (clients : List (String × GatewayClientM))
    (id : Nat) (freshOutbox : Inbox) : ConnectedUsersInnerM × GatewayUserM :=
  let user : GatewayUserM := { id := id, outbox := freshOutbox, clients := clients }
  (register s user, user)

end ConnectedUsers

/-- `GatewayClient::die`: fires the kill switch, builds a `DisconnectInfo`
from the session token and the current `last_sequence`, removes the session
token from the parent's client map, unconditionally deregisters the parent
from the registry, and records the `DisconnectInfo` in the resumable-clients
store under the session token.  Returns the updated registry state and the
updated parent. -/
def GatewayClient.die (client : GatewayClientM) (parent : GatewayUserM)
    (s : ConnectedUsersInnerM) : ConnectedUsersInnerM × GatewayUserM :=
  let disconnect_info : DisconnectInfoM :=
    { session_token := client.session_token
      disconnected_at_sequence := client.last_sequence
      parentId := parent.id }
  let parent' : GatewayUserM :=
    { parent with clients := mapRemove parent.clients client.session_token }
  let s1 := ConnectedUsers.deregister s parent'
  let s2 : ConnectedUsersInnerM :=
    { s1 with
      resumeable_clients_store :=
        mapInsert s1.resumeable_clients_store client.session_token disconnect_info }
  (s2, parent')

/-- C3 counterexample: a user with two clients `"a"` and `"b"`; after
`die` of client `"a"`, the parent still has client `"b"` but is nonetheless
removed from both `users` and `inboxes` — refuting that the user remains
registered iff it still has at least one client. -/
theorem c3_counterexample :
    (GatewayClient.die { session_token := "a", last_sequence := 7 }
        { id := 1, outbox := { sendOk := true, errMsg := "" },
          clients :=
            [("a", { session_token := "a", last_sequence := 7 }),
             ("b", { session_token := "b", last_sequence := 9 })] }
        { inboxes := [(1, { sendOk := true, errMsg := "" })],
          users :=
            [(1, { id := 1, outbox := { sendOk := true, errMsg := "" },
                   clients :=
                     [("a", { session_token := "a", last_sequence := 7 }),
                      ("b", { session_token := "b", last_sequence := 9 })] })],
          resumeable_clients_store := [] }).2.clients =
        [("b", { session_token := "b", last_sequence := 9 })] ∧
      mapLookup
        (GatewayClient.die { session_token := "a", last_sequence := 7 }
          { id := 1, outbox := { sendOk := true, errMsg := "" },
            clients :=
              [("a", { session_token := "a", last_sequence := 7 }),
               ("b", { session_token := "b", last_sequence := 9 })] }
          { inboxes := [(1, { sendOk := true, errMsg := "" })],
            users :=
              [(1, { id := 1, outbox := { sendOk := true, errMsg := "" },
                     clients :=
                       [("a", { session_token := "a", last_sequence := 7 }),
                        ("b", { session_token := "b", last_sequence := 9 })] })],
            resumeable_clients_store := [] }).1.users 1 = none := by
  constructor <;> rfl

/-- C3 (amended): after `c.die(connected_users)`, `c`'s session token is no
longer a key of the parent's client map; the resume store maps the session
token to a `DisconnectInfo` carrying that token and the client's last
sequence number; and the parent is unconditionally removed from both the
`users` and `inboxes` maps, even when it still has remaining clients. -/
theorem c3_client_die (client : GatewayClientM) (parent : GatewayUserM)
    (s : ConnectedUsersInnerM) :
    mapLookup (GatewayClient.die client parent s).2.clients
        client.session_token = none ∧
    mapLookup (GatewayClient.die client parent s).1.resumeable_clients_store
        client.session_token =
      some { session_token := client.session_token,
             disconnected_at_sequence := client.last_sequence,
             parentId := parent.id } ∧
    mapLookup (GatewayClient.die client parent s).1.users parent.id = none ∧
    mapLookup (GatewayClient.die client parent s).1.inboxes parent.id = none := by
  refine ⟨?_, ?_, ?_, ?_⟩ <;>
    simp [GatewayClient.die, ConnectedUsers.deregister, mapLookup_mapRemove,
      mapLookup_mapInsert]

/-- The registry invariant of the spec: `inboxes` and `users` have exactly
the same keys. -/
def sameKeys (s : ConnectedUsersInnerM) : Prop :=
  ∀ id : Nat, (mapLookup s.inboxes id).isSome ↔ (mapLookup s.users id).isSome

/-- C9: from any state in which `inboxes` and `users` have the same keys,
each of `register` (and hence `new_user`) and `deregister` preserves the
invariant: both maps gain, respectively lose, exactly the same key. -/
theorem c9_inboxes_users_same_keys (s : ConnectedUsersInnerM)
    (h : sameKeys s) (user : GatewayUserM)
    (clients : List (String × GatewayClientM)) (id : Nat) (outbox : Inbox) :
    sameKeys (ConnectedUsers.register s user) ∧
    sameKeys (ConnectedUsers.deregister s user) ∧
    sameKeys (ConnectedUsers.new_user s clients id outbox).1 := by
  refine ⟨?_, ?_, ?_⟩
  · intro j
    simp only [ConnectedUsers.register, mapLookup_mapInsert]
    by_cases hj : user.id = j
    · simp [hj]
    · simp [hj, h j]
  · intro j
    simp only [ConnectedUsers.deregister, mapLookup_mapRemove]
    by_cases hj : user.id = j
    · simp [hj]
    · simp [hj, h j]
  · intro j
    simp only [ConnectedUsers.new_user, ConnectedUsers.register,
      mapLookup_mapInsert]
    by_cases hj : id = j
    · simp [hj]
    · simp [hj, h j]

/-- Witness for C9: registering a user into the empty registry state keeps
the key sets of `inboxes` and `users` equal. -/
theorem c9_inboxes_users_same_keys_witness :
    sameKeys
      (ConnectedUsers.register
        { inboxes := [], users := [], resumeable_clients_store := [] }
        { id := 1, outbox := { sendOk := true, errMsg := "" }, clients := [] }) :=
  (c9_inboxes_users_same_keys
    { inboxes := [], users := [], resumeable_clients_store := [] }
    (fun _ => Iff.rfl)
    { id := 1, outbox := { sendOk := true, errMsg := "" }, clients := [] }
    [] 1 { sendOk := true, errMsg := "" }).1

/-! ## Bulk message dispatch (`BulkMessageBuilder`, types.rs lines 435-489) -/

/-- The result of `BulkMessageBuilder::send`: `Ok(())` or
`Error::Custom(msg)`. -/
inductive SendResult : Type
  | ok : SendResult
  | error : String → SendResult
deriving DecidableEq, Repr

/-- What `BulkMessageBuilder::send` did: the `(recipient, event)` publishes
that actually happened, in iteration order, and the returned result. -/
structure SendOutcome where
  published : List (Nat × EventM)
  result : SendResult
deriving DecidableEq, Repr

/-- `BulkMessageBuilder`: accumulated user recipients, role recipients and the
optional message. -/
structure BulkMessageBuilder where
  users : List Nat
  roles : List Nat
  message : Option EventM
deriving DecidableEq, Repr

namespace BulkMessageBuilder

/-- `BulkMessageBuilder::add_user_recipients`. -/
def add_user_recipients (b : BulkMessageBuilder) (us : List Nat) :
    BulkMessageBuilder :=
  { b with users := b.users ++ us }

/-- `BulkMessageBuilder::add_role_recipients`. -/
def add_role_recipients (b : BulkMessageBuilder) (rs : List Nat) :
    BulkMessageBuilder :=
  { b with roles := b.roles ++ rs }

/-- `BulkMessageBuilder::set_message`. -/
def set_message (b : BulkMessageBuilder) (message : EventM) :
    BulkMessageBuilder :=
  { b with message := some message }

/-- The recipient-collection loop of `send`: one pass over `self.roles`; for
each role, the role's users (when the role is in the `RoleUserMap`) are
inserted into the recipient set, and then — still inside the role loop —
the explicitly added user recipients are inserted.  The `HashSet` is
modelled as a duplicate-free list in insertion order. -/
def computeRecipients (b : BulkMessageBuilder)
    (roleUserMap : List (Nat × List Nat)) : List Nat :=
  b.roles.foldl
    (fun recipients role =>
      let afterRole :=
        match mapLookup roleUserMap role with
        | some users => users.foldl setInsert recipients
        | none => recipients
      b.users.foldl setInsert afterRole)
    []

/-- The delivery loop of `send`: for each recipient in order, look up the
inbox (`connected_users.inbox(*recipient)`); an absent inbox is skipped; a
present inbox is sent the message, and a send failure returns immediately
(the `?` operator) with `Error::Custom("tokio broadcast error: " + e)`,
abandoning the rest of the loop. -/
def deliver (message : EventM) (inboxes : List (Nat × Inbox)) :
    List Nat → List (Nat × EventM) × SendResult
  | [] => ([], SendResult.ok)
  | r :: rest =>
    match mapLookup inboxes r with
    | none => deliver message inboxes rest
    | some inbox =>
      if inbox.sendOk then
        let res := deliver message inboxes rest
        ((r, message) :: res.1, res.2)
      else
        ([], SendResult.error ("tokio broadcast error: " ++ inbox.errMsg))

/-- `BulkMessageBuilder::send`, as a function of the builder, the
`RoleUserMap` contents and the registry's `inboxes` map: fails when no
message is set, collects recipients with `computeRecipients`, returns `Ok`
early when the recipient set is empty, then runs the delivery loop. -/
def send (b : BulkMessageBuilder) (roleUserMap : List (Nat × List Nat))
    (inboxes : List (Nat × Inbox)) : SendOutcome :=
  match b.message with
  | none => { published := [], result := SendResult.error "No message to send" }
  | some message =>
    let recipients := b.computeRecipients roleUserMap
    if recipients.isEmpty then
      { published := [], result := SendResult.ok }
    else
      let res := deliver message inboxes recipients
      { published := res.1, result := res.2 }

end BulkMessageBuilder

/-- C2: evaluation of `BulkMessageBuilder::send` at the input on which the
claim and the code diverge, and at the spec's role fan-out example.  With
explicitly added user recipient `1`, no roles, the message set and a working
inbox for user `1`, the code publishes nothing (the user-recipient inserts
live inside the role loop, which runs zero times), while with roles
`[10, 20]` over `RoleUserMap = {10:{1,2}, 20:{2,3}}` it publishes to
`{1,2,3}` exactly once each. -/
theorem c2_send_at_failing_input :
    BulkMessageBuilder.send
        { users := [1], roles := [], message := some { tag := 0 } }
        [] [(1, { sendOk := true, errMsg := "" })] =
      { published := [], result := SendResult.ok } ∧
    BulkMessageBuilder.computeRecipients
        { users := [1], roles := [], message := some { tag := 0 } } [] = [] ∧
    BulkMessageBuilder.send
        { users := [], roles := [10, 20], message := some { tag := 0 } }
        [(10, [1, 2]), (20, [2, 3])]
        [(1, { sendOk := true, errMsg := "" }),
         (2, { sendOk := true, errMsg := "" }),
         (3, { sendOk := true, errMsg := "" })] =
      { published := [(1, { tag := 0 }), (2, { tag := 0 }), (3, { tag := 0 })],
        result := SendResult.ok } := by
  refine ⟨rfl, rfl, rfl⟩

/-- C7 counterexample: recipients `{1, 2}` resolved from role `10`, where
user `1`'s inbox send fails and user `2`'s inbox works.  The send error is
surfaced, but delivery to the remaining recipient `2` does not occur
(nothing is published at all) — refuting that only the failing recipient is
skipped. -/
theorem c7_counterexample :
    BulkMessageBuilder.send
        { users := [], roles := [10], message := some { tag := 5 } }
        [(10, [1, 2])]
        [(1, { sendOk := false, errMsg := "channel closed" }),
         (2, { sendOk := true, errMsg := "" })] =
      { published := [],
        result := SendResult.error "tokio broadcast error: channel closed" } := by
  rfl

/-- C7 (amended): `send` with no message set returns the domain error
`"No message to send"` and publishes nothing; a recipient whose inbox is
absent from the registry is silently skipped (the loop continues); and a
failure sending to a recipient's inbox is wrapped as a domain error
containing the underlying broadcast error and returned immediately — the
recipients not yet iterated are not delivered to. -/
theorem c7_send_error_handling (roleUserMap : List (Nat × List Nat))
    (inboxes : List (Nat × Inbox)) (b : BulkMessageBuilder) (m : EventM)
    (r : Nat) (rest : List Nat) (inbox : Inbox) :
    (b.message = none →
      BulkMessageBuilder.send b roleUserMap inboxes =
        { published := [], result := SendResult.error "No message to send" }) ∧
    (mapLookup inboxes r = none →
      BulkMessageBuilder.deliver m inboxes (r :: rest) =
        BulkMessageBuilder.deliver m inboxes rest) ∧
    (mapLookup inboxes r = some inbox → inbox.sendOk = false →
      BulkMessageBuilder.deliver m inboxes (r :: rest) =
        ([], SendResult.error ("tokio broadcast error: " ++ inbox.errMsg))) := by
  refine ⟨?_, ?_, ?_⟩
  · intro h
    simp [BulkMessageBuilder.send, h]
  · intro h
    simp [BulkMessageBuilder.deliver, h]
  · intro h hfail
    simp [BulkMessageBuilder.deliver, h, hfail]

/-- Witness for C7 at concrete inputs: a builder with no message, a recipient
with no inbox, and a recipient whose inbox fails. -/
theorem c7_send_error_handling_witness :
    BulkMessageBuilder.send { users := [], roles := [], message := none } [] [] =
      { published := [], result := SendResult.error "No message to send" } ∧
    BulkMessageBuilder.deliver { tag := 0 } [] ([3] : List Nat) =
      BulkMessageBuilder.deliver { tag := 0 } [] ([] : List Nat) ∧
    BulkMessageBuilder.deliver { tag := 0 }
        [(1, { sendOk := false, errMsg := "channel closed" })] [1, 2] =
      ([], SendResult.error ("tokio broadcast error: " ++ "channel closed")) :=
  ⟨(c7_send_error_handling [] [] { users := [], roles := [], message := none }
      { tag := 0 } 3 [] { sendOk := true, errMsg := "" }).1 rfl,
    (c7_send_error_handling [] [] { users := [], roles := [], message := none }
      { tag := 0 } 3 [] { sendOk := true, errMsg := "" }).2.1 rfl,
    (c7_send_error_handling []
      [(1, { sendOk := false, errMsg := "channel closed" })]
      { users := [], roles := [], message := none } { tag := 0 } 1 [2]
      { sendOk := false, errMsg := "channel closed" }).2.2 rfl rfl⟩

/-! ## RoleUserMap initialisation (types.rs lines 491-545) -/

theorem mem_setInsert_of_mem {α : Type} [DecidableEq α] {s : List α} {a : α}
    (x : α) (h : a ∈ s) : a ∈ setInsert s x := by
  unfold setInsert
  by_cases hx : x ∈ s
  · rw [if_pos hx]
    exact h
  · rw [if_neg hx]
    exact List.mem_append_left _ h

theorem mem_setInsert_self {α : Type} [DecidableEq α] (s : List α) (x : α) :
    x ∈ setInsert s x := by
  unfold setInsert
  by_cases hx : x ∈ s
  · rw [if_pos hx]
    exact hx
  · rw [if_neg hx]
    exact List.mem_append_right _ (List.mem_singleton_self x)

namespace RoleUserMap

/-- The second pass of `RoleUserMap::init`: for each `(user_id, role_id)` row
of `SELECT index, role_id FROM member_roles`, the code does
`self.map.get_mut(&role_id).unwrap()` and inserts the user id into the
role's set; `none` models the `unwrap` panic when the role id is not a key
of the map. -/
def insertPairs (m : List (Nat × List Nat)) :
    List (Nat × Nat) → Option (List (Nat × List Nat))
  | [] => some m
  | (user_id, role_id) :: rest =>
    match mapLookup m role_id with
    | none => none
    | some users =>
      insertPairs (mapInsert m role_id (setInsert users user_id)) rest

/-- `RoleUserMap::init` as a function of the two query results: first insert
every role id of `SELECT id FROM roles` with an empty set, then fold the
member-role rows with `insertPairs`. -/
def init (roleIds : List Nat) (memberRoles : List (Nat × Nat)) :
    Option (List (Nat × List Nat)) :=
  insertPairs (roleIds.foldl (fun m role_id => mapInsert m role_id []) [])
    memberRoles

end RoleUserMap

theorem mapLookup_foldl_insertEmpty (l : List Nat)
    (m0 : List (Nat × List Nat)) (r : Nat) :
    mapLookup (l.foldl (fun m role_id => mapInsert m role_id []) m0) r =
      if r ∈ l then some [] else mapLookup m0 r := by
  induction l generalizing m0 with
  | nil => simp
  | cons a l ih =>
    simp only [List.foldl_cons, ih, mapLookup_mapInsert, List.mem_cons]
    by_cases hl : r ∈ l
    · simp [hl]
    · by_cases ha : a = r
      · simp [hl, ha]
      · have hra : ¬(r = a) := fun hh => ha hh.symm
        simp [hl, ha, hra]

theorem insertPairs_spec (pairs : List (Nat × Nat)) (m : List (Nat × List Nat))
    (h : ∀ p ∈ pairs, (mapLookup m p.2).isSome) :
    ∃ m', RoleUserMap.insertPairs m pairs = some m' ∧
      (∀ r, (mapLookup m' r).isSome ↔ (mapLookup m r).isSome) ∧
      (∀ r u users, mapLookup m r = some users → u ∈ users →
        ∃ users', mapLookup m' r = some users' ∧ u ∈ users') ∧
      (∀ p ∈ pairs, ∃ users, mapLookup m' p.2 = some users ∧ p.1 ∈ users) ∧
      (∀ r, (∀ p ∈ pairs, p.2 ≠ r) → mapLookup m' r = mapLookup m r) := by
  induction pairs generalizing m with
  | nil =>
    exact ⟨m, rfl, fun r => Iff.rfl,
      fun r u users h1 h2 => ⟨users, h1, h2⟩,
      fun p hp => absurd hp (List.not_mem_nil p),
      fun r _ => rfl⟩
  | cons p rest ih =>
    obtain ⟨u, rid⟩ := p
    have hhead : (mapLookup m rid).isSome := h (u, rid) (List.mem_cons_self _ _)
    obtain ⟨users, husers⟩ := Option.isSome_iff_exists.mp hhead
    have hrest : ∀ q ∈ rest,
        (mapLookup (mapInsert m rid (setInsert users u)) q.2).isSome := by
      intro q hq
      rw [mapLookup_mapInsert]
      by_cases hr : rid = q.2
      · simp [hr]
      · rw [if_neg hr]
        exact h q (List.mem_cons_of_mem _ hq)
    obtain ⟨m', hm', hkeys, hmono, hpairs, huntouched⟩ :=
      ih (mapInsert m rid (setInsert users u)) hrest
    refine ⟨m', ?_, ?_, ?_, ?_, ?_⟩
    · simp [RoleUserMap.insertPairs, husers, hm']
    · intro r
      rw [hkeys r, mapLookup_mapInsert]
      by_cases hr : rid = r
      · subst hr
        simp [husers]
      · rw [if_neg hr]
    · intro r u0 users0 h1 h2
      by_cases hr : rid = r
      · subst hr
        have heq : users0 = users := by
          rw [husers] at h1
          exact (Option.some.inj h1).symm
        subst heq
        exact hmono rid u0 (setInsert users0 u)
          (by rw [mapLookup_mapInsert, if_pos rfl])
          (mem_setInsert_of_mem u h2)
      · exact hmono r u0 users0
          (by rw [mapLookup_mapInsert, if_neg hr]; exact h1) h2
    · intro q hq
      rcases List.mem_cons.mp hq with hq | hq
      · subst hq
        exact hmono rid u (setInsert users u)
          (by rw [mapLookup_mapInsert, if_pos rfl])
          (mem_setInsert_self users u)
      · exact hpairs q hq
    · intro r hr
      have hrid : rid ≠ r := hr (u, rid) (List.mem_cons_self _ _)
      rw [huntouched r (fun q hq => hr q (List.mem_cons_of_mem _ hq)),
        mapLookup_mapInsert, if_neg hrid]

/-- C8: after `RoleUserMap::init` succeeds on query results in which every
member-role pair references a role id returned by the roles query, every
role id returned by the roles query is a key of the map — mapping to the
empty set when no member-role pair references it — and for every pair
`(user_id, role_id)`, `user_id` is an element of the set at key
`role_id`. -/
theorem c8_role_user_map_init (roleIds : List Nat)
    (memberRoles : List (Nat × Nat))
    (horphan : ∀ p ∈ memberRoles, p.2 ∈ roleIds) :
    ∃ m, RoleUserMap.init roleIds memberRoles = some m ∧
      (∀ r ∈ roleIds, (mapLookup m r).isSome) ∧
      (∀ r ∈ roleIds, (∀ p ∈ memberRoles, p.2 ≠ r) → mapLookup m r = some []) ∧
      (∀ p ∈ memberRoles, ∃ users, mapLookup m p.2 = some users ∧
        p.1 ∈ users) := by
  have hbase : ∀ p ∈ memberRoles,
      (mapLookup
        (roleIds.foldl (fun m role_id => mapInsert m role_id ([] : List Nat))
          ([] : List (Nat × List Nat)))
        p.2).isSome := by
    intro p hp
    rw [mapLookup_foldl_insertEmpty, if_pos (horphan p hp)]
    rfl
  obtain ⟨m, hm, hkeys, hmono, hpairs, huntouched⟩ :=
    insertPairs_spec memberRoles _ hbase
  refine ⟨m, hm, ?_, ?_, hpairs⟩
  · intro r hr
    rw [hkeys r, mapLookup_foldl_insertEmpty, if_pos hr]
    rfl
  · intro r hr hnone
    rw [huntouched r hnone, mapLookup_foldl_insertEmpty, if_pos hr]

/-- Witness for C8 on a concrete database: roles `{10, 20}` and member-role
rows `{(1,10), (2,10), (2,20)}` (which satisfy the foreign-key side
condition), on which init succeeds. -/
theorem c8_role_user_map_init_witness :
    (RoleUserMap.init [10, 20] [(1, 10), (2, 10), (2, 20)]).isSome = true := by
  obtain ⟨m, hm, -, -, -⟩ :=
    c8_role_user_map_init [10, 20] [(1, 10), (2, 10), (2, 20)] (by decide)
  rw [hm]
  rfl

end Symfonia
